import Mathlib

/-
Shallow embedding of the Content-Builder-Agent repository (TypeScript).

Each definition is translated from one source function, with network and
filesystem effects replaced by explicit oracle arguments that describe the
outcome of each external call:

  src/tools/generate-image.ts    : pollTaskStatus, generateImageTool
  src/utils/index.ts             : getPageText (the bounded-retry fetch loop)
  src/clients/twitter/client.ts  : TwitterClient (fromEnv, postTweet, ...)
  src/clients/linkedin/client.ts : LinkedInClient (fromEnv, postToLinkedIn, ...)
  src/tools/publish-post.ts      : publishPostTool
  src/tools/extract-content.ts   : extractFromUrl, extractContentTool

JavaScript string truthiness (undefined and "" are falsy) is modelled by
jsTruthy on Option String; thrown JavaScript Error values are modelled as
explicit thrown constructors in the oracle types, carrying the error name
and message strings.
-/

namespace ContentBuilder

/-- Truthiness of a possibly-undefined JavaScript string: undefined and the
empty string are falsy, every other string is truthy. -/
def jsTruthy : Option String → Bool
  | some s => !s.isEmpty
  | none => false

/-- The JavaScript expression `v || dflt` on a possibly-undefined string. -/
def jsOr (v : Option String) (dflt : String) : String :=
  match v with
  | some s => if s.isEmpty then dflt else s
  | none => dflt

/-- The JavaScript expression `v || undefined`: null, undefined and the
empty string all collapse to undefined. -/
def jsOrNone (v : Option String) : Option String :=
  match v with
  | some s => if s.isEmpty then none else some s
  | none => none

/-- Whether pat occurs as a contiguous run inside l, as JavaScript includes
does on strings. -/
def occursIn (pat : List Char) : List Char → Bool
  | [] => pat.isEmpty
  | c :: cs => pat.isPrefixOf (c :: cs) || occursIn pat cs

/-- Characters of a string after JavaScript toLowerCase. -/
def lowerChars (s : String) : List Char := s.data.map Char.toLower

/-- The JavaScript test `msg.toLowerCase().includes(pat)` for an already
lowercase pattern pat. -/
def includesLower (msg pat : String) : Bool := occursIn pat.data (lowerChars msg)

/-- Plain substring containment on strings. -/
def strContains (s pat : String) : Bool := occursIn pat.data s.data

/-! Task poller: src/tools/generate-image.ts -/

def POLL_INTERVAL_MS : Nat := 2000

def MAX_POLL_ATTEMPTS : Nat := 60

inductive TaskStatus where
  | pending
  | running
  | succeeded
  | failed
deriving DecidableEq, Repr

/-- The output field of the DashScope task response. -/
structure TaskOutput where
  task_status : TaskStatus
  results : Option (List String)
  message : Option String
deriving DecidableEq, Repr

/-- Outcome of one status-fetch request inside pollTaskStatus: the fetch
can reject (its exception propagates), resolve with a non-ok HTTP status
(the code then throws), or resolve with a parsed body. -/
inductive PollResponse where
  | reject (msg : String)
  | httpError (status : Nat) (body : String)
  | ok (out : TaskOutput)
deriving DecidableEq, Repr

deriving instance DecidableEq for Except

/-- Message of the timeout error thrown after the final attempt; the source
computes MAX_POLL_ATTEMPTS * POLL_INTERVAL_MS / 1000 seconds. -/
def timeoutMessage (intervalMs maxAttempts : Nat) : String :=
  "Image generation timed out after " ++ Nat.repr (maxAttempts * intervalMs / 1000)
    ++ " seconds"

/-- Trace of the poll loop: the value returned or the message of the error
thrown, the number of status-fetch calls made, and the sleeps performed. -/
structure PollTrace where
  result : Except String String
  calls : Nat
  sleeps : List Nat
deriving DecidableEq, Repr

/-- Translation of the for-loop of pollTaskStatus. attempt is the loop
index and left the number of iterations that remain, so the source guard
attempt < MAX_POLL_ATTEMPTS becomes left > 0 (the entry point keeps
attempt + left = maxAttempts). -/
def pollLoopGo (poll : Nat → PollResponse) (intervalMs maxAttempts : Nat) :
    Nat → Nat → PollTrace
  | _, 0 => ⟨.error (timeoutMessage intervalMs maxAttempts), 0, []⟩
  | attempt, left + 1 =>
    match poll attempt with
    | .reject m => ⟨.error m, 1, []⟩
    | .httpError st body =>
      ⟨.error ("Failed to poll task status: " ++ Nat.repr st ++ " - " ++ body), 1, []⟩
    | .ok out =>
      match out.task_status with
      | .succeeded =>
        match out.results with
        | none => ⟨.error "Task succeeded but no image URL returned", 1, []⟩
        | some [] => ⟨.error "Task succeeded but no image URL returned", 1, []⟩
        | some (url :: _) => ⟨.ok url, 1, []⟩
      | .failed =>
        ⟨.error ("Image generation failed: " ++ jsOr out.message "Unknown error"), 1, []⟩
      | _ =>
        let t := pollLoopGo poll intervalMs maxAttempts (attempt + 1) left
        ⟨t.result, t.calls + 1, intervalMs :: t.sleeps⟩

/-- pollTaskStatus with explicit interval and attempt bound. -/
def pollTaskStatusWith (poll : Nat → PollResponse) (intervalMs maxAttempts : Nat) :
    PollTrace :=
  pollLoopGo poll intervalMs maxAttempts 0 maxAttempts

/-- pollTaskStatus from src/tools/generate-image.ts, with the polling
constants of the source. -/
def pollTaskStatus (poll : Nat → PollResponse) : PollTrace :=
  pollTaskStatusWith poll POLL_INTERVAL_MS MAX_POLL_ATTEMPTS

/-- A poll response that keeps the loop running: an ok response whose
status is pending or running. -/
def nonTerminalResponse : PollResponse → Bool
  | .ok out =>
    match out.task_status with
    | .pending => true
    | .running => true
    | _ => false
  | _ => false

/-- Result record of the generate_image tool. -/
structure GenerateImageResult where
  success : Bool
  prompt : String
  outputPath : String
  imageUrl : Option String
  error : Option String
deriving DecidableEq, Repr

/-- generateImageTool from src/tools/generate-image.ts. createTask is the
outcome of createImageTask, poll feeds pollTaskStatus, download is the
outcome of downloadImage, and fullPath is the resolved output path. The
top-level try/catch converts any thrown error into success = false. -/
def generateImageTool (prompt outputPath fullPath : String)
    (createTask : Except String String) (poll : Nat → PollResponse)
    (download : Except String Unit) : GenerateImageResult :=
  match createTask with
  | .error e => ⟨false, prompt, outputPath, none, some e⟩
  | .ok _taskId =>
    match (pollTaskStatus poll).result with
    | .error e => ⟨false, prompt, outputPath, none, some e⟩
    | .ok imageUrl =>
      match download with
      | .error e => ⟨false, prompt, outputPath, none, some e⟩
      | .ok _ => ⟨true, prompt, fullPath, some imageUrl, none⟩

/-! Resilient fetcher: the retry loop of getPageText in src/utils/index.ts -/

def PAGE_FETCH_RETRIES : Nat := 2

/-- Outcome of one fetch call inside the retry loop of getPageText: either
the promise resolves with a response (HTTP status and body text) or it
rejects with a JavaScript Error carrying a name and a message. -/
inductive FetchAttemptOutcome where
  | response (status : Nat) (body : String)
  | thrown (name : String) (msg : String)
deriving DecidableEq, Repr

/-- Exponential backoff of the retry loop: 250 * 2 ^ attempt ms. -/
def backoffMs (attempt : Nat) : Nat := 250 * 2 ^ attempt

/-- Message of the error thrown on a non-ok HTTP response. -/
def httpErrorMsg (st : Nat) : String := "HTTP error! status: " ++ Nat.repr st

/-- The abort test of the catch block in getPageText. -/
def isAbortError (name msg : String) : Bool :=
  name == "AbortError" || includesLower msg "aborted"

/-- The fetch-failed test of the catch block in getPageText. -/
def isFetchFailedError (msg : String) : Bool := includesLower msg "fetch failed"

/-- Trace of the retry loop: the response it broke out with or the error it
rethrew (name, message), the number of fetch attempts made, and the
backoff sleeps performed in order. -/
structure FetchTrace where
  outcome : Except (String × String) (Nat × String)
  attempts : Nat
  sleeps : List Nat
deriving DecidableEq, Repr

/-- Translation of the attempt loop of getPageText. attempt is the loop
index and left = retries - attempt the retries that remain, so the source
guard attempt < retries becomes left > 0. A non-ok response throws
httpErrorMsg, and that error flows through the same catch block as a
rejected fetch does. -/
def fetchLoopGo (f : Nat → FetchAttemptOutcome) (attempt : Nat) : Nat → FetchTrace
  | 0 =>
    -- final attempt: neither the status test nor the catch block may retry
    (match f attempt with
     | .response st body =>
       if 200 ≤ st ∧ st ≤ 299 then ⟨.ok (st, body), 1, []⟩
       else ⟨.error ("Error", httpErrorMsg st), 1, []⟩
     | .thrown name msg => ⟨.error (name, msg), 1, []⟩)
  | left + 1 =>
    match f attempt with
    | .response st body =>
      if 200 ≤ st ∧ st ≤ 299 then ⟨.ok (st, body), 1, []⟩
      else if st = 429 ∨ 500 ≤ st then
        let t := fetchLoopGo f (attempt + 1) left
        ⟨t.outcome, t.attempts + 1, backoffMs attempt :: t.sleeps⟩
      else if isAbortError "Error" (httpErrorMsg st) || isFetchFailedError (httpErrorMsg st) then
        -- the thrown HTTP error reaches the catch block; its message never
        -- matches the abort or fetch-failed tests, so this branch is dead
        let t := fetchLoopGo f (attempt + 1) left
        ⟨t.outcome, t.attempts + 1, backoffMs attempt :: t.sleeps⟩
      else ⟨.error ("Error", httpErrorMsg st), 1, []⟩
    | .thrown name msg =>
      if isAbortError name msg || isFetchFailedError msg then
        let t := fetchLoopGo f (attempt + 1) left
        ⟨t.outcome, t.attempts + 1, backoffMs attempt :: t.sleeps⟩
      else ⟨.error (name, msg), 1, []⟩

/-- The fetch part of getPageText with an explicit retry count. -/
def getPageTextTrace (f : Nat → FetchAttemptOutcome) (retries : Nat) : FetchTrace :=
  fetchLoopGo f 0 retries

/-- getPageText from src/utils/index.ts: the outer try/catch converts any
rethrown error into undefined; on success the cheerio processing of the
body is abstracted by the extract argument. -/
def getPageText (f : Nat → FetchAttemptOutcome) (retries : Nat)
    (extract : String → String) : Option String :=
  match (getPageTextTrace f retries).outcome with
  | .ok (_, body) => some (extract body)
  | .error _ => none

/-! Twitter client: src/clients/twitter/client.ts -/

/-- Image value from src/utils/types.ts. -/
structure Image where
  imageUrl : String
  mimeType : String
deriving DecidableEq, Repr

inductive TwitterAuthMode where
  | oauth
  | arcade
deriving DecidableEq, Repr

/-- Rendering of the mode used in the invalid-configuration message. -/
def TwitterAuthMode.str : TwitterAuthMode → String
  | .oauth => "oauth"
  | .arcade => "arcade"

structure TwitterOAuthConfig where
  appKey : String
  appSecret : String
  accessToken : String
  accessSecret : String
deriving DecidableEq, Repr

structure TwitterArcadeConfig where
  arcadeApiKey : String
  arcadeUserId : String
deriving DecidableEq, Repr

structure TwitterClientConfig where
  mode : TwitterAuthMode
  oauth : Option TwitterOAuthConfig
  arcade : Option TwitterArcadeConfig
deriving DecidableEq, Repr

/-- State of a constructed TwitterClient: the selected mode together with
the private fields the constructor assigned. oauthClient stands for the
TwitterApi object (an object, so its truthiness is isSome) and
arcadeClient for the Arcade object, remembering its api key. -/
structure TwitterClient where
  mode : TwitterAuthMode
  oauthClient : Option TwitterOAuthConfig
  arcadeClient : Option String
  arcadeUserId : Option String
deriving DecidableEq, Repr

/-- The TwitterClient constructor: selects the branch for the configured
mode or throws the invalid-configuration error. -/
def TwitterClient.ofConfig (config : TwitterClientConfig) : Except String TwitterClient :=
  match config.mode, config.oauth, config.arcade with
  | .oauth, some o, _ => .ok ⟨.oauth, some o, none, none⟩
  | .arcade, _, some a => .ok ⟨.arcade, none, some a.arcadeApiKey, some a.arcadeUserId⟩
  | m, _, _ =>
    .error ("Invalid configuration for mode: " ++ m.str ++ ". Please provide the required config.")

/-- The environment variables TwitterClient.fromEnv reads. -/
structure TwitterEnv where
  TWITTER_APP_KEY : Option String
  TWITTER_APP_SECRET : Option String
  TWITTER_ACCESS_TOKEN : Option String
  TWITTER_ACCESS_SECRET : Option String
  ARCADE_API_KEY : Option String
  ARCADE_USER_ID : Option String
deriving DecidableEq, Repr

/-- Whether the complete direct-credentials set is present (all four OAuth
variables truthy). -/
def twitterDirectComplete (env : TwitterEnv) : Bool :=
  jsTruthy env.TWITTER_APP_KEY && jsTruthy env.TWITTER_APP_SECRET &&
    jsTruthy env.TWITTER_ACCESS_TOKEN && jsTruthy env.TWITTER_ACCESS_SECRET

/-- Whether the complete broker-credentials set is present. -/
def twitterBrokerComplete (env : TwitterEnv) : Bool :=
  jsTruthy env.ARCADE_API_KEY && jsTruthy env.ARCADE_USER_ID

/-- Error thrown by TwitterClient.fromEnv when no credential set is complete. -/
def twitterMissingCredsMsg : String :=
  "Missing Twitter credentials. Set either TWITTER_APP_KEY/SECRET/ACCESS_TOKEN/ACCESS_SECRET or ARCADE_API_KEY/USER_ID"

/-- TwitterClient.fromEnv: direct credentials first, broker second, throw
otherwise. -/
def TwitterClient.fromEnv (env : TwitterEnv) : Except String TwitterClient :=
  if twitterDirectComplete env then
    TwitterClient.ofConfig
      ⟨.oauth,
        some ⟨env.TWITTER_APP_KEY.getD "", env.TWITTER_APP_SECRET.getD "",
          env.TWITTER_ACCESS_TOKEN.getD "", env.TWITTER_ACCESS_SECRET.getD ""⟩,
        none⟩
  else if twitterBrokerComplete env then
    TwitterClient.ofConfig
      ⟨.arcade, none, some ⟨env.ARCADE_API_KEY.getD "", env.ARCADE_USER_ID.getD ""⟩⟩
  else .error twitterMissingCredsMsg

/-- createTwitterClient: fromEnv with the throw converted to undefined. -/
def createTwitterClient (env : TwitterEnv) : Option TwitterClient :=
  (TwitterClient.fromEnv env).toOption

/-- TweetResult from src/clients/twitter/client.ts. -/
structure TweetResult where
  success : Bool
  tweetId : Option String
  tweetUrl : Option String
  error : Option String
deriving DecidableEq, Repr

/-- Outcome of the v1.uploadMedia call chain inside uploadMediaOAuth
(including the imageUrlToBuffer fetch): a media id or a thrown error. -/
inductive UploadOutcome where
  | ok (mediaId : String)
  | thrown (msg : String)
deriving DecidableEq, Repr

/-- Outcome of the v2.tweet call: the created id or a thrown error. -/
inductive TweetApiOutcome where
  | ok (id : String)
  | thrown (msg : String)
deriving DecidableEq, Repr

/-- Outcome of the Arcade tools.execute call, shared by both platforms:
result.output with its success flag, id field (tweet_id or post_id) and
error field; output may be undefined; or the call throws. -/
inductive ArcadeExecOutcome where
  | output (success : Bool) (outId : Option String) (err : Option String)
  | noOutput
  | thrown (msg : String)
deriving DecidableEq, Repr

/-- Oracles for one postTweet call. -/
structure TwitterWorld where
  upload : UploadOutcome
  tweetApi : TweetApiOutcome
  arcadeExec : ArcadeExecOutcome
deriving DecidableEq, Repr

/-- uploadMediaOAuth: returns the media id, or undefined when the client is
missing or anything threw (the catch swallows the error). -/
def TwitterClient.uploadMediaOAuth (c : TwitterClient) (o : UploadOutcome) :
    Option String :=
  if c.oauthClient.isNone then none
  else
    match o with
    | .ok mediaId => some mediaId
    | .thrown _ => none

/-- postTweetOAuth: optional upload (whose failure is swallowed), then the
tweet call, with the catch converting a thrown error into a failure
result. -/
def TwitterClient.postTweetOAuth (c : TwitterClient) (image : Option Image)
    (upload : UploadOutcome) (tweetApi : TweetApiOutcome) : TweetResult :=
  if c.oauthClient.isNone then ⟨false, none, none, some "OAuth client not initialized"⟩
  else
    let _mediaId : Option String :=
      match image with
      | some _ => c.uploadMediaOAuth upload
      | none => none
    match tweetApi with
    | .ok id =>
      ⟨true, some id, some ("https://twitter.com/i/status/" ++ id), none⟩
    | .thrown m => ⟨false, none, none, some m⟩

/-- postTweetArcade: the broker call; a truthy output.success yields a
success result whose tweet id may be absent. -/
def TwitterClient.postTweetArcade (c : TwitterClient) (exec : ArcadeExecOutcome) :
    TweetResult :=
  if !(c.arcadeClient.isSome && jsTruthy c.arcadeUserId) then
    ⟨false, none, none, some "Arcade client not initialized"⟩
  else
    match exec with
    | .output success outId err =>
      if success then
        ⟨true, outId, outId.map (fun i => "https://twitter.com/i/status/" ++ i), none⟩
      else ⟨false, none, none, some (jsOr err "Unknown Arcade error")⟩
    | .noOutput => ⟨false, none, none, some (jsOr none "Unknown Arcade error")⟩
    | .thrown m => ⟨false, none, none, some m⟩

/-- postTweet: dispatch on the mode selected at construction. -/
def TwitterClient.postTweet (c : TwitterClient) (w : TwitterWorld)
    (image : Option Image) : TweetResult :=
  match c.mode with
  | .oauth => c.postTweetOAuth image w.upload w.tweetApi
  | .arcade => c.postTweetArcade w.arcadeExec

/-! LinkedIn client: src/clients/linkedin/client.ts -/

inductive LinkedInAuthMode where
  | oauth
  | arcade
deriving DecidableEq, Repr

def LinkedInAuthMode.str : LinkedInAuthMode → String
  | .oauth => "oauth"
  | .arcade => "arcade"

structure LinkedInOAuthConfig where
  accessToken : String
  personUrn : Option String
  organizationId : Option String
deriving DecidableEq, Repr

structure LinkedInArcadeConfig where
  arcadeApiKey : String
  arcadeUserId : String
deriving DecidableEq, Repr

structure LinkedInClientConfig where
  mode : LinkedInAuthMode
  oauth : Option LinkedInOAuthConfig
  arcade : Option LinkedInArcadeConfig
  postToOrganization : Option Bool
deriving DecidableEq, Repr

/-- State of a constructed LinkedInClient. accessToken, personUrn and
organizationId are strings (string truthiness applies); arcadeClient is
an object remembering its api key. -/
structure LinkedInClient where
  mode : LinkedInAuthMode
  accessToken : Option String
  personUrn : Option String
  organizationId : Option String
  arcadeClient : Option String
  arcadeUserId : Option String
  postToOrganization : Bool
deriving DecidableEq, Repr

/-- The LinkedInClient constructor. -/
def LinkedInClient.ofConfig (config : LinkedInClientConfig) :
    Except String LinkedInClient :=
  let pto := config.postToOrganization.getD false
  match config.mode, config.oauth, config.arcade with
  | .oauth, some o, _ =>
    .ok ⟨.oauth, some o.accessToken, o.personUrn, o.organizationId, none, none, pto⟩
  | .arcade, _, some a =>
    .ok ⟨.arcade, none, none, none, some a.arcadeApiKey, some a.arcadeUserId, pto⟩
  | m, _, _ =>
    .error ("Invalid configuration for mode: " ++ m.str ++ ". Please provide the required config.")

/-- The environment variables LinkedInClient.fromEnv reads. -/
structure LinkedInEnv where
  LINKEDIN_ACCESS_TOKEN : Option String
  LINKEDIN_PERSON_URN : Option String
  LINKEDIN_ORGANIZATION_ID : Option String
  ARCADE_API_KEY : Option String
  ARCADE_USER_ID : Option String
deriving DecidableEq, Repr

/-- Whether the direct-credentials set is present (the access token). -/
def linkedInDirectComplete (env : LinkedInEnv) : Bool :=
  jsTruthy env.LINKEDIN_ACCESS_TOKEN

/-- Whether the broker-credentials set is present. -/
def linkedInBrokerComplete (env : LinkedInEnv) : Bool :=
  jsTruthy env.ARCADE_API_KEY && jsTruthy env.ARCADE_USER_ID

/-- Error thrown by LinkedInClient.fromEnv when no credential set is
complete. -/
def linkedInMissingCredsMsg : String :=
  "Missing LinkedIn credentials. Set either LINKEDIN_ACCESS_TOKEN or ARCADE_API_KEY/USER_ID"

/-- LinkedInClient.fromEnv: access token first, broker second, throw
otherwise. -/
def LinkedInClient.fromEnv (env : LinkedInEnv) (postToOrganization : Option Bool) :
    Except String LinkedInClient :=
  if linkedInDirectComplete env then
    LinkedInClient.ofConfig
      ⟨.oauth,
        some ⟨env.LINKEDIN_ACCESS_TOKEN.getD "", env.LINKEDIN_PERSON_URN,
          env.LINKEDIN_ORGANIZATION_ID⟩,
        none, postToOrganization⟩
  else if linkedInBrokerComplete env then
    LinkedInClient.ofConfig
      ⟨.arcade, none, some ⟨env.ARCADE_API_KEY.getD "", env.ARCADE_USER_ID.getD ""⟩,
        postToOrganization⟩
  else .error linkedInMissingCredsMsg

/-- createLinkedInClient: fromEnv with the throw converted to undefined. -/
def createLinkedInClient (env : LinkedInEnv) (postToOrganization : Option Bool) :
    Option LinkedInClient :=
  (LinkedInClient.fromEnv env postToOrganization).toOption

/-- LinkedInPostResult from src/clients/linkedin/client.ts. -/
structure LinkedInPostResult where
  success : Bool
  postId : Option String
  postUrl : Option String
  error : Option String
deriving DecidableEq, Repr

/-- Outcome of the GET /me profile fetch inside getAuthorUrn: an ok
response carrying profile.id, a non-ok response, or a thrown error (the
last two both fall through to undefined). -/
inductive ProfileFetchOutcome where
  | ok (id : String)
  | notOk
  | thrown
deriving DecidableEq, Repr

/-- Outcome of the register-then-PUT upload chain inside the LinkedIn
uploadMediaOAuth: the asset urn or a thrown error. -/
inductive LinkedInUploadOutcome where
  | ok (asset : String)
  | thrown (msg : String)
deriving DecidableEq, Repr

/-- Outcome of the POST /ugcPosts call: an ok response whose x-restli-id
header may be absent, a non-ok response (the code then throws), or a
thrown error. -/
inductive LinkedInPostApiOutcome where
  | ok (restliId : Option String)
  | httpError (status : Nat) (body : String)
  | thrown (msg : String)
deriving DecidableEq, Repr

/-- Oracles for one postToLinkedIn call. -/
structure LinkedInWorld where
  profileFetch : ProfileFetchOutcome
  upload : LinkedInUploadOutcome
  postApi : LinkedInPostApiOutcome
  arcadeExec : ArcadeExecOutcome
deriving DecidableEq, Repr

/-- getAuthorUrn: organization urn, else the configured person urn, else a
profile lookup, else undefined. -/
def LinkedInClient.getAuthorUrn (c : LinkedInClient) (profile : ProfileFetchOutcome) :
    Option String :=
  if c.postToOrganization && jsTruthy c.organizationId then
    some ("urn:li:organization:" ++ c.organizationId.getD "")
  else if jsTruthy c.personUrn then c.personUrn
  else if jsTruthy c.accessToken then
    match profile with
    | .ok id => some ("urn:li:person:" ++ id)
    | .notOk => none
    | .thrown => none
  else none

/-- uploadMediaOAuth: returns the asset urn, or undefined when the token is
missing or anything threw (the catch swallows the error). -/
def LinkedInClient.uploadMediaOAuth (c : LinkedInClient) (o : LinkedInUploadOutcome) :
    Option String :=
  if !jsTruthy c.accessToken then none
  else
    match o with
    | .ok asset => some asset
    | .thrown _ => none

/-- postOAuth: author resolution, optional upload (whose failure is
swallowed), then the ugcPosts call; the x-restli-id header may be null,
in which case the success result carries no post id. -/
def LinkedInClient.postOAuth (c : LinkedInClient) (image : Option Image)
    (profile : ProfileFetchOutcome) (upload : LinkedInUploadOutcome)
    (postApi : LinkedInPostApiOutcome) : LinkedInPostResult :=
  if !jsTruthy c.accessToken then ⟨false, none, none, some "Access token not configured"⟩
  else
    let authorUrn := c.getAuthorUrn profile
    if !jsTruthy authorUrn then ⟨false, none, none, some "Could not determine author URN"⟩
    else
      let _mediaAsset : Option String :=
        match image with
        | some _ => c.uploadMediaOAuth upload
        | none => none
      match postApi with
      | .ok restliId =>
        ⟨true, jsOrNone restliId,
          (jsOrNone restliId).map (fun i => "https://www.linkedin.com/feed/update/" ++ i),
          none⟩
      | .httpError st body =>
        ⟨false, none, none,
          some ("LinkedIn API error: " ++ Nat.repr st ++ " - " ++ body)⟩
      | .thrown m => ⟨false, none, none, some m⟩

/-- postArcade: the broker call, mirroring the Twitter variant. -/
def LinkedInClient.postArcade (c : LinkedInClient) (exec : ArcadeExecOutcome) :
    LinkedInPostResult :=
  if !(c.arcadeClient.isSome && jsTruthy c.arcadeUserId) then
    ⟨false, none, none, some "Arcade client not initialized"⟩
  else
    match exec with
    | .output success outId err =>
      if success then
        ⟨true, outId, outId.map (fun i => "https://www.linkedin.com/feed/update/" ++ i), none⟩
      else ⟨false, none, none, some (jsOr err "Unknown Arcade error")⟩
    | .noOutput => ⟨false, none, none, some (jsOr none "Unknown Arcade error")⟩
    | .thrown m => ⟨false, none, none, some m⟩

/-- postToLinkedIn: dispatch on the mode selected at construction. -/
def LinkedInClient.postToLinkedIn (c : LinkedInClient) (w : LinkedInWorld)
    (image : Option Image) : LinkedInPostResult :=
  match c.mode with
  | .oauth => c.postOAuth image w.profileFetch w.upload w.postApi
  | .arcade => c.postArcade w.arcadeExec

/-! Publish tool: src/tools/publish-post.ts -/

inductive PublishPlatform where
  | twitter
  | linkedin
deriving DecidableEq, Repr

/-- SocialPostResult returned by the publish_post tool. -/
structure SocialPostResult where
  platform : String
  success : Bool
  postId : Option String
  postUrl : Option String
  error : Option String
deriving DecidableEq, Repr

/-- publishPostTool from src/tools/publish-post.ts. loadImage is the
outcome of loadImageFromPath (which catches internally and may yield
undefined); the client worlds carry the network-call outcomes. -/
def publishPostTool (platform : PublishPlatform) (imagePath : Option String)
    (loadImage : Option Image) (tEnv : TwitterEnv) (tw : TwitterWorld)
    (lEnv : LinkedInEnv) (lw : LinkedInWorld) : SocialPostResult :=
  let image : Option Image :=
    match imagePath with
    | some _ => loadImage
    | none => none
  match platform with
  | .twitter =>
    match createTwitterClient tEnv with
    | none =>
      ⟨"twitter", false, none, none,
        some "Twitter client not available. Check TWITTER_* environment variables."⟩
    | some c =>
      let r := c.postTweet tw image
      ⟨"twitter", r.success, r.tweetId, r.tweetUrl, r.error⟩
  | .linkedin =>
    match createLinkedInClient lEnv none with
    | none =>
      ⟨"linkedin", false, none, none,
        some "LinkedIn client not available. Check LINKEDIN_* environment variables."⟩
    | some c =>
      let r := c.postToLinkedIn lw image
      ⟨"linkedin", r.success, r.postId, r.postUrl, r.error⟩

/-! Extract-content tool: src/tools/extract-content.ts -/

/-- PageContent from src/utils/types.ts (the fields the tool fills). -/
structure PageContent where
  url : String
  content : String
deriving DecidableEq, Repr

/-- ExtractedContent from src/utils/types.ts. -/
structure ExtractedContent where
  pageContents : List PageContent
  relevantLinks : List String
  imageOptions : List String
  failedUrls : List String
deriving DecidableEq, Repr

/-- Outcome of getUrlContents for one url: contents (with the optional
Firecrawl image list), undefined, or a thrown error. -/
inductive UrlContentsOutcome where
  | contents (content : String) (imageUrls : Option (List String))
  | failed
  | thrown (msg : String)
deriving DecidableEq, Repr

/-- Return record of extractFromUrl. -/
structure ExtractFromUrlResult where
  success : Bool
  pageContent : Option PageContent
  imageOptions : Option (List String)
  error : Option String
deriving DecidableEq, Repr

/-- extractFromUrl: per-url extraction with its own try/catch. The image
extraction pipeline (extractAllImageUrlsFromMarkdown composed with
filterUnwantedImageUrls) is abstracted by imagesFromContent. -/
def extractFromUrl (url : String) (o : UrlContentsOutcome)
    (imagesFromContent : String → List String) : ExtractFromUrlResult :=
  match o with
  | .thrown m => ⟨false, none, none, some m⟩
  | .failed => ⟨false, none, none, some ("Failed to fetch content from " ++ url)⟩
  | .contents content imageUrls =>
    let extractedImages := imagesFromContent content
    let imageOptions :=
      match imageUrls with
      | some l => if l.length > 0 then l else extractedImages
      | none => extractedImages
    ⟨true, some ⟨url, content⟩, some imageOptions, none⟩

/-- Whether getUrlContents produced contents for this url (exactly the
urls the aggregation loop counts as successes). -/
def isContents : UrlContentsOutcome → Bool
  | .contents _ _ => true
  | _ => false

/-- The aggregation loop of extractContentTool over the per-url results,
in input order: page contents, relevant links, image options (not yet
deduplicated) and failed urls. -/
def extractCollect : List (String × ExtractFromUrlResult) →
    List PageContent × List String × List String × List String
  | [] => ([], [], [], [])
  | (url, r) :: rest =>
    let (pcs, links, imgs, fails) := extractCollect rest
    if r.success && r.pageContent.isSome then
      (r.pageContent.getD ⟨url, ""⟩ :: pcs, url :: links,
        r.imageOptions.getD [] ++ imgs, fails)
    else (pcs, links, imgs, url :: fails)

/-- Deduplication keeping first occurrences, as a JavaScript Set built
from an array does. -/
def jsSetDedup (l : List String) : List String :=
  match l with
  | [] => []
  | x :: xs => x :: jsSetDedup (xs.filter (fun y => !(y == x)))
termination_by l.length
decreasing_by
  simp only [List.length_cons]
  exact Nat.lt_succ_of_le (List.length_filter_le _ _)

/-- extractContentTool from src/tools/extract-content.ts: fan out
extractFromUrl over the urls (fetch gives each url its getUrlContents
outcome), aggregate in input order, deduplicate the image options. -/
def extractContentTool (urls : List String) (fetch : String → UrlContentsOutcome)
    (imagesFromContent : String → List String) : ExtractedContent :=
  let results := urls.map (fun u => (u, extractFromUrl u (fetch u) imagesFromContent))
  let (pcs, links, imgs, fails) := extractCollect results
  ⟨pcs, links, jsSetDedup imgs, fails⟩

/-- Consistency of a terminal publish result: success agrees with the
absence of an error, and a present post id only occurs on success. -/
def pubConsistent (success : Bool) (postId err : Option String) : Prop :=
  (success = true ↔ err = none) ∧ (postId.isSome = true → success = true)

/-! Helper lemmas -/

/-- A character of a list with a prefix test passing is a character of the
larger list. -/
theorem mem_of_isPrefixOf {pat l : List Char} (h : pat.isPrefixOf l = true) :
    ∀ c ∈ pat, c ∈ l := by
  intro c hc
  exact ( List.isPrefixOf_iff_prefix.mp h).subset hc

/-- occursIn is false when some character of the pattern is missing from
the searched list. -/
theorem occursIn_eq_false {pat l : List Char} (c : Char) (hc : c ∈ pat)
    (hl : ∀ x ∈ l, x ≠ c) : occursIn pat l = false := by
  induction l with
  | nil =>
    cases pat with
    | nil => cases hc
    | cons p ps => simp [occursIn]
  | cons a as ih =>
    simp only [occursIn, Bool.or_eq_false_iff]
    refine ⟨?_, ih (fun x hx => hl x (List.mem_cons_of_mem _ hx))⟩
    cases hpre : pat.isPrefixOf (a :: as) with
    | false => rfl
    | true => exact absurd rfl (hl c (mem_of_isPrefixOf hpre c hc))

/-- Every character produced by the digit accumulator is a digit character. -/
theorem toDigitsCore_digits :
    ∀ (fuel n : Nat) (ds : List Char),
      (∀ c ∈ ds, ∃ d, d < 10 ∧ c = Nat.digitChar d) →
      ∀ c ∈ Nat.toDigitsCore 10 fuel n ds, ∃ d, d < 10 ∧ c = Nat.digitChar d := by
  intro fuel
  induction fuel with
  | zero => intro n ds hds; simpa [Nat.toDigitsCore] using hds
  | succ fuel ih =>
    intro n ds hds c hc
    by_cases h : n / 10 = 0
    · simp [Nat.toDigitsCore, h] at hc
      rcases hc with rfl | hc
      · exact ⟨n % 10, Nat.mod_lt _ (by omega), rfl⟩
      · exact hds c hc
    · simp only [Nat.toDigitsCore, if_neg h] at hc
      refine ih (n / 10) (Nat.digitChar (n % 10) :: ds) ?_ c hc
      intro x hx
      rcases List.mem_cons.mp hx with rfl | hx
      · exact ⟨n % 10, Nat.mod_lt _ (by omega), rfl⟩
      · exact hds x hx

/-- Every character of the decimal rendering of a Nat is a digit character. -/
theorem repr_data_digits (n : Nat) :
    ∀ c ∈ (Nat.repr n).data, ∃ d, d < 10 ∧ c = Nat.digitChar d := by
  intro c hc
  have h : (Nat.repr n).data = Nat.toDigitsCore 10 (n + 1) n [] := rfl
  rw [h] at hc
  exact toDigitsCore_digits (n + 1) n [] (by intro x hx; cases hx) c hc

/-- Lowercased digit characters are neither b nor f. -/
theorem digitChar_toLower_ne {d : Nat} (hd : d < 10) :
    (Nat.digitChar d).toLower ≠ 'b' ∧ (Nat.digitChar d).toLower ≠ 'f' := by
  interval_cases d <;> exact ⟨by decide, by decide⟩

/-- The message of a thrown HTTP status error never matches the abort or
fetch-failed retry tests of the catch block. -/
theorem httpErrorMsg_no_retry (st : Nat) :
    (isAbortError "Error" (httpErrorMsg st) || isFetchFailedError (httpErrorMsg st)) = false := by
  have h1 : ∀ x ∈ lowerChars (httpErrorMsg st), x ≠ 'b' ∧ x ≠ 'f' := by
    intro x hx
    have hx' : x ∈ ("HTTP error! status: ".data.map Char.toLower) ∨
        x ∈ ((Nat.repr st).data.map Char.toLower) := by
      have : lowerChars (httpErrorMsg st) =
          "HTTP error! status: ".data.map Char.toLower ++
            (Nat.repr st).data.map Char.toLower := by
        simp [lowerChars, httpErrorMsg]
      rw [this] at hx
      exact List.mem_append.mp hx
    rcases hx' with h | h
    · have hss : ∀ y ∈ ("HTTP error! status: ".data.map Char.toLower),
          y ≠ 'b' ∧ y ≠ 'f' := by decide
      exact hss x h
    · rcases List.mem_map.mp h with ⟨ch, hch, rfl⟩
      rcases repr_data_digits st ch hch with ⟨d, hd, rfl⟩
      exact digitChar_toLower_ne hd
  have hab : occursIn "aborted".data (lowerChars (httpErrorMsg st)) = false :=
    occursIn_eq_false 'b' (by decide) (fun x hx => (h1 x hx).1)
  have hff : occursIn "fetch failed".data (lowerChars (httpErrorMsg st)) = false :=
    occursIn_eq_false 'f' (by decide) (fun x hx => (h1 x hx).2)
  simp [isAbortError, isFetchFailedError, includesLower, hab, hff]

/-- Under an everywhere non-terminal poll oracle, the loop runs out its
budget: one call and one sleep per remaining iteration, ending in the
timeout error. -/
theorem pollLoopGo_nonterminal (poll : Nat → PollResponse) (intervalMs maxAttempts : Nat)
    (h : ∀ n, nonTerminalResponse (poll n) = true) :
    ∀ left attempt, pollLoopGo poll intervalMs maxAttempts attempt left =
      ⟨.error (timeoutMessage intervalMs maxAttempts), left, List.replicate left intervalMs⟩ := by
  intro left
  induction left with
  | zero => intro attempt; rfl
  | succ left ih =>
    intro attempt
    have hn := h attempt
    cases hp : poll attempt with
    | reject m => rw [hp] at hn; simp [nonTerminalResponse] at hn
    | httpError st body => rw [hp] at hn; simp [nonTerminalResponse] at hn
    | ok out =>
      rw [hp] at hn
      cases hs : out.task_status with
      | succeeded => simp [nonTerminalResponse, hs] at hn
      | failed => simp [nonTerminalResponse, hs] at hn
      | pending => simp [pollLoopGo, hp, hs, ih, List.replicate_succ]
      | running => simp [pollLoopGo, hp, hs, ih, List.replicate_succ]

/-- Claim C3: if pollOnce always reports a non-terminal status, the poller
makes exactly maxAttempts calls, sleeps the fixed interval after each,
and then returns a timeout failure; with the source defaults (2000 ms,
60 attempts) the total sleep is 120000 ms and the timeout message is
distinct from every provider-reported failure message. -/
theorem C3_poller_timeout (poll : Nat → PollResponse) (intervalMs maxAttempts : Nat)
    (h : ∀ n, nonTerminalResponse (poll n) = true) :
    pollTaskStatusWith poll intervalMs maxAttempts =
      ⟨.error (timeoutMessage intervalMs maxAttempts), maxAttempts,
        List.replicate maxAttempts intervalMs⟩ ∧
    pollTaskStatus poll =
      ⟨.error "Image generation timed out after 120 seconds", 60, List.replicate 60 2000⟩ ∧
    (List.replicate 60 2000).sum = 120000 ∧
    (∀ m : String,
      "Image generation timed out after 120 seconds" ≠ "Image generation failed: " ++ m) := by
  refine ⟨pollLoopGo_nonterminal poll intervalMs maxAttempts h maxAttempts 0, ?_, by decide, ?_⟩
  · calc pollTaskStatus poll
        = ⟨.error (timeoutMessage POLL_INTERVAL_MS MAX_POLL_ATTEMPTS), MAX_POLL_ATTEMPTS,
            List.replicate MAX_POLL_ATTEMPTS POLL_INTERVAL_MS⟩ :=
          pollLoopGo_nonterminal poll POLL_INTERVAL_MS MAX_POLL_ATTEMPTS h MAX_POLL_ATTEMPTS 0
      _ = ⟨.error "Image generation timed out after 120 seconds", 60,
            List.replicate 60 2000⟩ := by decide
  · intro m hm
    have hd := congrArg String.data hm
    rw [String.data_append] at hd
    have hpre : ("Image generation failed: ".data).isPrefixOf
        ("Image generation timed out after 120 seconds").data = true :=
      List.isPrefixOf_iff_prefix.mpr ⟨m.data, hd.symm⟩
    exact absurd hpre (by decide)

/-- Witness for C3 at a constant pending oracle. -/
theorem C3_poller_timeout_witness :
    pollTaskStatus (fun _ => PollResponse.ok ⟨.pending, none, none⟩) =
      ⟨.error "Image generation timed out after 120 seconds", 60, List.replicate 60 2000⟩ :=
  (C3_poller_timeout (fun _ => PollResponse.ok ⟨.pending, none, none⟩) 2000 60
    (fun _ => rfl)).2.1

/-- Claim C4: a Failed status on the very first poll terminates the poller
at once: one call, no sleeps, and a fatal failure carrying the provider
message. -/
theorem C4_poller_failed_terminal (poll : Nat → PollResponse) (rs : Option (List String))
    (m : String) (h : poll 0 = .ok ⟨.failed, rs, some m⟩) (hm : m ≠ "") :
    pollTaskStatus poll = ⟨.error ("Image generation failed: " ++ m), 1, []⟩ ∧
    (∀ intervalMs maxAttempts, 0 < maxAttempts →
      pollTaskStatusWith poll intervalMs maxAttempts =
        ⟨.error ("Image generation failed: " ++ m), 1, []⟩) := by
  have hgen : ∀ intervalMs maxAttempts, 0 < maxAttempts →
      pollTaskStatusWith poll intervalMs maxAttempts =
        ⟨.error ("Image generation failed: " ++ m), 1, []⟩ := by
    intro intervalMs maxAttempts hma
    obtain ⟨k, rfl⟩ : ∃ k, maxAttempts = k + 1 := ⟨maxAttempts - 1, by omega⟩
    have hem : m.isEmpty = false := by
      cases he : m.isEmpty with
      | false => rfl
      | true => exact absurd ((String.isEmpty_iff m).mp he) hm
    simp [pollTaskStatusWith, pollLoopGo, h, jsOr, hem]
  exact ⟨hgen POLL_INTERVAL_MS MAX_POLL_ATTEMPTS (by decide), hgen⟩

/-- Witness for C4 at a concrete failing oracle. -/
theorem C4_poller_failed_terminal_witness :
    pollTaskStatus (fun _ => PollResponse.ok ⟨.failed, none, some "boom"⟩) =
      ⟨.error ("Image generation failed: " ++ "boom"), 1, []⟩ :=
  (C4_poller_failed_terminal (fun _ => PollResponse.ok ⟨.failed, none, some "boom"⟩)
    none "boom" rfl (by decide)).1

/-- Claim C2 counterexample: a retryable network-layer failure (HTTP 503)
of the first status fetch is not retried; the poller terminates at once
with that error after a single call, even though every later poll would
have reported success. -/
theorem C2_counterexample :
    pollTaskStatus (fun n =>
      if n = 0 then PollResponse.httpError 503 "service unavailable"
      else PollResponse.ok ⟨.succeeded, some ["https://img.example/x.png"], none⟩) =
      ⟨.error "Failed to poll task status: 503 - service unavailable", 1, []⟩ := by
  decide

/-- Claim C2 amended: a network-layer failure of a pollOnce status fetch is
not retried; the thrown error terminates the whole polling operation
after exactly one call and no sleep. -/
theorem C2_amended_poll_http_error_terminal (poll : Nat → PollResponse)
    (st : Nat) (body : String) (h : poll 0 = .httpError st body) :
    pollTaskStatus poll =
      ⟨.error ("Failed to poll task status: " ++ Nat.repr st ++ " - " ++ body), 1, []⟩ ∧
    (∀ intervalMs maxAttempts, 0 < maxAttempts →
      pollTaskStatusWith poll intervalMs maxAttempts =
        ⟨.error ("Failed to poll task status: " ++ Nat.repr st ++ " - " ++ body), 1, []⟩) := by
  have hgen : ∀ intervalMs maxAttempts, 0 < maxAttempts →
      pollTaskStatusWith poll intervalMs maxAttempts =
        ⟨.error ("Failed to poll task status: " ++ Nat.repr st ++ " - " ++ body), 1, []⟩ := by
    intro intervalMs maxAttempts hma
    obtain ⟨k, rfl⟩ : ∃ k, maxAttempts = k + 1 := ⟨maxAttempts - 1, by omega⟩
    simp [pollTaskStatusWith, pollLoopGo, h]
  exact ⟨hgen POLL_INTERVAL_MS MAX_POLL_ATTEMPTS (by decide), hgen⟩

/-- Witness for the amended C2 at a concrete oracle. -/
theorem C2_amended_witness :
    pollTaskStatus (fun _ => PollResponse.httpError 500 "oops") =
      ⟨.error ("Failed to poll task status: " ++ Nat.repr 500 ++ " - " ++ "oops"), 1, []⟩ :=
  (C2_amended_poll_http_error_terminal (fun _ => PollResponse.httpError 500 "oops")
    500 "oops" rfl).1

/-- Claim C10: a Succeeded snapshot with a missing or empty results list
makes the poller throw the no-image-URL error, so generateImageTool
returns success = false with that message although the provider reported
success. -/
theorem C10_succeeded_without_results (prompt outputPath fullPath tid : String)
    (download : Except String Unit) (poll : Nat → PollResponse)
    (rs : Option (List String)) (msg : Option String)
    (h : poll 0 = .ok ⟨.succeeded, rs, msg⟩)
    (hrs : rs = none ∨ rs = some []) :
    generateImageTool prompt outputPath fullPath (.ok tid) poll download =
      ⟨false, prompt, outputPath, none, some "Task succeeded but no image URL returned"⟩ := by
  have hp : (pollTaskStatus poll).result = .error "Task succeeded but no image URL returned" := by
    show (pollLoopGo poll POLL_INTERVAL_MS MAX_POLL_ATTEMPTS 0 (59 + 1)).result = _
    rcases hrs with rfl | rfl <;> simp [pollLoopGo, h]
  simp [generateImageTool, hp]

/-- Witness for C10 at a concrete oracle. -/
theorem C10_succeeded_without_results_witness :
    generateImageTool "a cat" "out.png" "/output/out.png" (.ok "task-1")
      (fun _ => PollResponse.ok ⟨.succeeded, none, none⟩) (.ok ()) =
      ⟨false, "a cat", "out.png", none, some "Task succeeded but no image URL returned"⟩ :=
  C10_succeeded_without_results "a cat" "out.png" "/output/out.png" "task-1" (.ok ())
    (fun _ => PollResponse.ok ⟨.succeeded, none, none⟩) none none rfl (Or.inl rfl)

/-- A retryable non-ok status with retries remaining sleeps the backoff and
moves to the next attempt. -/
theorem fetchLoopGo_retry_step (f : Nat → FetchAttemptOutcome) (attempt left st : Nat)
    (body : String) (hf : f attempt = .response st body)
    (hnok : ¬(200 ≤ st ∧ st ≤ 299)) (hretry : st = 429 ∨ 500 ≤ st) :
    fetchLoopGo f attempt (left + 1) =
      ⟨(fetchLoopGo f (attempt + 1) left).outcome,
        (fetchLoopGo f (attempt + 1) left).attempts + 1,
        backoffMs attempt :: (fetchLoopGo f (attempt + 1) left).sleeps⟩ := by
  simp only [fetchLoopGo]
  rw [hf]
  simp only [if_neg hnok, if_pos hretry]

/-- On the final attempt a non-ok status is rethrown as a fatal error. -/
theorem fetchLoopGo_last_not_ok (f : Nat → FetchAttemptOutcome) (attempt st : Nat)
    (body : String) (hf : f attempt = .response st body)
    (hnok : ¬(200 ≤ st ∧ st ≤ 299)) :
    fetchLoopGo f attempt 0 = ⟨.error ("Error", httpErrorMsg st), 1, []⟩ := by
  simp only [fetchLoopGo]
  rw [hf]
  simp only [if_neg hnok]

/-- A non-ok status that is neither 429 nor a 5xx is fatal at any point of
the loop: no retry and no sleep, regardless of how many retries remain. -/
theorem fetchLoopGo_fatal_status (f : Nat → FetchAttemptOutcome) (attempt left st : Nat)
    (body : String) (hf : f attempt = .response st body)
    (hnok : ¬(200 ≤ st ∧ st ≤ 299)) (h429 : st ≠ 429) (h5 : st < 500) :
    fetchLoopGo f attempt left = ⟨.error ("Error", httpErrorMsg st), 1, []⟩ := by
  cases left with
  | zero => exact fetchLoopGo_last_not_ok f attempt st body hf hnok
  | succ l =>
    simp only [fetchLoopGo]
    rw [hf]
    simp only [if_neg hnok, if_neg (by omega : ¬(st = 429 ∨ 500 ≤ st))]
    rw [if_neg]
    simp [httpErrorMsg_no_retry st]

/-- Claim C5: with a 503 on every attempt and the default retry budget of
2, the fetch loop makes exactly 3 attempts, sleeps 250 ms then 500 ms
between them, rethrows the HTTP error after the third, and getPageText
surfaces the failure as undefined. -/
theorem C5_fetcher_retry_bound (f : Nat → FetchAttemptOutcome) (bodies : Nat → String)
    (extract : String → String) (h : ∀ n, f n = .response 503 (bodies n)) :
    getPageTextTrace f PAGE_FETCH_RETRIES = ⟨.error ("Error", httpErrorMsg 503), 3, [250, 500]⟩ ∧
    getPageText f PAGE_FETCH_RETRIES extract = none := by
  have hnok : ¬(200 ≤ 503 ∧ 503 ≤ 299) := by omega
  have hretry : 503 = 429 ∨ 500 ≤ 503 := by omega
  have h2 : fetchLoopGo f 2 0 = ⟨.error ("Error", httpErrorMsg 503), 1, []⟩ :=
    fetchLoopGo_last_not_ok f 2 503 (bodies 2) (h 2) hnok
  have h1 : fetchLoopGo f 1 1 = ⟨.error ("Error", httpErrorMsg 503), 2, [500]⟩ := by
    rw [fetchLoopGo_retry_step f 1 0 503 (bodies 1) (h 1) hnok hretry, h2]
    rfl
  have h0 : fetchLoopGo f 0 2 = ⟨.error ("Error", httpErrorMsg 503), 3, [250, 500]⟩ := by
    rw [fetchLoopGo_retry_step f 0 1 503 (bodies 0) (h 0) hnok hretry, h1]
    rfl
  refine ⟨h0, ?_⟩
  simp [getPageText, getPageTextTrace, PAGE_FETCH_RETRIES, h0]

/-- Witness for C5 at a concrete always-503 oracle. -/
theorem C5_fetcher_retry_bound_witness :
    getPageTextTrace (fun _ => FetchAttemptOutcome.response 503 "busy") PAGE_FETCH_RETRIES =
      ⟨.error ("Error", httpErrorMsg 503), 3, [250, 500]⟩ :=
  (C5_fetcher_retry_bound (fun _ => FetchAttemptOutcome.response 503 "busy")
    (fun _ => "busy") id (fun _ => rfl)).1

/-- Claim C6: an HTTP error status other than 429 and below 500 on the
first attempt is fatal: the loop terminates after that single attempt
with no backoff sleep, and getPageText surfaces undefined. -/
theorem C6_fetcher_fatal_non_retryable (f : Nat → FetchAttemptOutcome) (st : Nat)
    (body : String) (retries : Nat) (extract : String → String)
    (hf : f 0 = .response st body) (hnok : ¬(200 ≤ st ∧ st ≤ 299))
    (h429 : st ≠ 429) (h5 : st < 500) :
    getPageTextTrace f retries = ⟨.error ("Error", httpErrorMsg st), 1, []⟩ ∧
    getPageText f retries extract = none := by
  have h0 : fetchLoopGo f 0 retries = ⟨.error ("Error", httpErrorMsg st), 1, []⟩ :=
    fetchLoopGo_fatal_status f 0 retries st body hf hnok h429 h5
  exact ⟨h0, by simp [getPageText, getPageTextTrace, h0]⟩

/-- Witness for C6 at a single 404 response. -/
theorem C6_fetcher_fatal_non_retryable_witness :
    getPageTextTrace (fun _ => FetchAttemptOutcome.response 404 "not found") PAGE_FETCH_RETRIES =
      ⟨.error ("Error", httpErrorMsg 404), 1, []⟩ :=
  (C6_fetcher_fatal_non_retryable (fun _ => FetchAttemptOutcome.response 404 "not found")
    404 "not found" PAGE_FETCH_RETRIES id rfl (by omega) (by omega) (by omega)).1

/-- Claim C7: client construction selects the direct strategy whenever the
complete direct set is present (even with broker credentials around),
the broker strategy when only the broker set is complete, and otherwise
throws the descriptive error naming the environment keys, for both the
Twitter and the LinkedIn client. -/
theorem C7_publisher_strategy_selection
    (e1 e2 e3 : TwitterEnv) (l1 l2 l3 : LinkedInEnv) (pto : Option Bool)
    (h1 : twitterDirectComplete e1 = true)
    (h2d : twitterDirectComplete e2 = false) (h2b : twitterBrokerComplete e2 = true)
    (h3d : twitterDirectComplete e3 = false) (h3b : twitterBrokerComplete e3 = false)
    (g1 : linkedInDirectComplete l1 = true)
    (g2d : linkedInDirectComplete l2 = false) (g2b : linkedInBrokerComplete l2 = true)
    (g3d : linkedInDirectComplete l3 = false) (g3b : linkedInBrokerComplete l3 = false) :
    TwitterClient.fromEnv e1 =
      .ok ⟨.oauth, some ⟨e1.TWITTER_APP_KEY.getD "", e1.TWITTER_APP_SECRET.getD "",
        e1.TWITTER_ACCESS_TOKEN.getD "", e1.TWITTER_ACCESS_SECRET.getD ""⟩, none, none⟩ ∧
    TwitterClient.fromEnv e2 =
      .ok ⟨.arcade, none, some (e2.ARCADE_API_KEY.getD ""), some (e2.ARCADE_USER_ID.getD "")⟩ ∧
    TwitterClient.fromEnv e3 = .error twitterMissingCredsMsg ∧
    strContains twitterMissingCredsMsg "TWITTER_APP_KEY" = true ∧
    strContains twitterMissingCredsMsg "ARCADE_API_KEY" = true ∧
    LinkedInClient.fromEnv l1 pto =
      .ok ⟨.oauth, some (l1.LINKEDIN_ACCESS_TOKEN.getD ""), l1.LINKEDIN_PERSON_URN,
        l1.LINKEDIN_ORGANIZATION_ID, none, none, pto.getD false⟩ ∧
    LinkedInClient.fromEnv l2 pto =
      .ok ⟨.arcade, none, none, none, some (l2.ARCADE_API_KEY.getD ""),
        some (l2.ARCADE_USER_ID.getD ""), pto.getD false⟩ ∧
    LinkedInClient.fromEnv l3 pto = .error linkedInMissingCredsMsg ∧
    strContains linkedInMissingCredsMsg "LINKEDIN_ACCESS_TOKEN" = true ∧
    strContains linkedInMissingCredsMsg "ARCADE_API_KEY" = true := by
  refine ⟨?_, ?_, ?_, by decide, by decide, ?_, ?_, ?_, by decide, by decide⟩
  · simp [TwitterClient.fromEnv, h1, TwitterClient.ofConfig]
  · simp [TwitterClient.fromEnv, h2d, h2b, TwitterClient.ofConfig]
  · simp [TwitterClient.fromEnv, h3d, h3b]
  · simp [LinkedInClient.fromEnv, g1, LinkedInClient.ofConfig]
  · simp [LinkedInClient.fromEnv, g2d, g2b, LinkedInClient.ofConfig]
  · simp [LinkedInClient.fromEnv, g3d, g3b]

/-- Witness for C7 at concrete environments (direct complete with broker
also present, broker only, and neither). -/
theorem C7_publisher_strategy_selection_witness :
    TwitterClient.fromEnv ⟨some "k", some "s", some "t", some "a", some "ak", some "au"⟩ =
      .ok ⟨.oauth, some ⟨"k", "s", "t", "a"⟩, none, none⟩ ∧
    TwitterClient.fromEnv ⟨none, some "s", some "t", some "a", some "ak", some "au"⟩ =
      .ok ⟨.arcade, none, some "ak", some "au"⟩ ∧
    TwitterClient.fromEnv ⟨none, none, none, none, none, none⟩ =
      .error twitterMissingCredsMsg ∧
    LinkedInClient.fromEnv ⟨some "tok", none, none, some "ak", some "au"⟩ none =
      .ok ⟨.oauth, some "tok", none, none, none, none, false⟩ ∧
    LinkedInClient.fromEnv ⟨none, none, none, some "ak", some "au"⟩ none =
      .ok ⟨.arcade, none, none, none, some "ak", some "au", false⟩ ∧
    LinkedInClient.fromEnv ⟨none, none, none, none, none⟩ none =
      .error linkedInMissingCredsMsg := by
  have h := C7_publisher_strategy_selection
    ⟨some "k", some "s", some "t", some "a", some "ak", some "au"⟩
    ⟨none, some "s", some "t", some "a", some "ak", some "au"⟩
    ⟨none, none, none, none, none, none⟩
    ⟨some "tok", none, none, some "ak", some "au"⟩
    ⟨none, none, none, some "ak", some "au"⟩
    ⟨none, none, none, none, none⟩
    none (by decide) (by decide) (by decide) (by decide) (by decide)
    (by decide) (by decide) (by decide) (by decide) (by decide)
  exact ⟨h.1, h.2.1, h.2.2.1, h.2.2.2.2.2.1, h.2.2.2.2.2.2.1, h.2.2.2.2.2.2.2.1⟩

/-- Every postTweet result is consistent: success iff no error, and a
present tweet id only on success. -/
theorem postTweet_consistent (c : TwitterClient) (w : TwitterWorld) (img : Option Image) :
    pubConsistent (c.postTweet w img).success (c.postTweet w img).tweetId
      (c.postTweet w img).error := by
  obtain ⟨mode, oc, ac, au⟩ := c
  cases mode with
  | oauth =>
    simp only [TwitterClient.postTweet, TwitterClient.postTweetOAuth]
    split
    · simp [pubConsistent]
    · cases w.tweetApi <;> simp [pubConsistent]
  | arcade =>
    simp only [TwitterClient.postTweet, TwitterClient.postTweetArcade]
    split
    · simp [pubConsistent]
    · cases w.arcadeExec with
      | output s outId err => cases s <;> simp [pubConsistent]
      | noOutput => simp [pubConsistent]
      | thrown m => simp [pubConsistent]

/-- Every postToLinkedIn result is consistent in the same sense. -/
theorem postToLinkedIn_consistent (c : LinkedInClient) (w : LinkedInWorld)
    (img : Option Image) :
    pubConsistent (c.postToLinkedIn w img).success (c.postToLinkedIn w img).postId
      (c.postToLinkedIn w img).error := by
  obtain ⟨mode, tok, pu, oi, ac, au, pto⟩ := c
  cases mode with
  | oauth =>
    simp only [LinkedInClient.postToLinkedIn, LinkedInClient.postOAuth]
    split
    · simp [pubConsistent]
    · split
      · simp [pubConsistent]
      · cases w.postApi with
        | ok restliId => simp [pubConsistent]
        | httpError st body => simp [pubConsistent]
        | thrown m => simp [pubConsistent]
  | arcade =>
    simp only [LinkedInClient.postToLinkedIn, LinkedInClient.postArcade]
    split
    · simp [pubConsistent]
    · cases w.arcadeExec with
      | output s outId err => cases s <;> simp [pubConsistent]
      | noOutput => simp [pubConsistent]
      | thrown m => simp [pubConsistent]

/-- Claim C1 amended: for every terminal result of postTweet,
postToLinkedIn and the publish tool, success = true holds iff error is
absent, and a present post id implies success = true; success = true
does not by itself guarantee a present post id. -/
theorem C1_amended_publish_result_consistency
    (c : TwitterClient) (w : TwitterWorld) (img : Option Image)
    (lc : LinkedInClient) (lw : LinkedInWorld) (limg : Option Image)
    (platform : PublishPlatform) (imagePath : Option String) (loadImage : Option Image)
    (tEnv : TwitterEnv) (tw : TwitterWorld) (lEnv : LinkedInEnv) (lw2 : LinkedInWorld) :
    pubConsistent (c.postTweet w img).success (c.postTweet w img).tweetId
      (c.postTweet w img).error ∧
    pubConsistent (lc.postToLinkedIn lw limg).success (lc.postToLinkedIn lw limg).postId
      (lc.postToLinkedIn lw limg).error ∧
    pubConsistent (publishPostTool platform imagePath loadImage tEnv tw lEnv lw2).success
      (publishPostTool platform imagePath loadImage tEnv tw lEnv lw2).postId
      (publishPostTool platform imagePath loadImage tEnv tw lEnv lw2).error := by
  refine ⟨postTweet_consistent c w img, postToLinkedIn_consistent lc lw limg, ?_⟩
  cases platform with
  | twitter =>
    cases hc : createTwitterClient tEnv with
    | none => simp [publishPostTool, hc, pubConsistent]
    | some c2 =>
      have h := postTweet_consistent c2 tw
        (match imagePath with | some _ => loadImage | none => none)
      simpa [publishPostTool, hc] using h
  | linkedin =>
    cases hc : createLinkedInClient lEnv none with
    | none => simp [publishPostTool, hc, pubConsistent]
    | some c2 =>
      have h := postToLinkedIn_consistent c2 lw2
        (match imagePath with | some _ => loadImage | none => none)
      simpa [publishPostTool, hc] using h

/-- Claim C1 counterexample: a broker execution reporting success without a
tweet id yields a terminal result with success = true, an absent postId
and an absent error, so success = true does not coincide with postId
being present. -/
theorem C1_counterexample :
    TwitterClient.postTweet ⟨.arcade, none, some "ak", some "au"⟩
      ⟨.ok "mid", .ok "tid", .output true none none⟩ none =
      ⟨true, none, none, none⟩ := by
  decide

/-- A client built by TwitterClient.fromEnv in oauth mode always carries an
initialized oauth client object. -/
theorem fromEnv_oauth_client {env : TwitterEnv} {c : TwitterClient}
    (h : TwitterClient.fromEnv env = .ok c) (hm : c.mode = .oauth) :
    c.oauthClient.isSome = true := by
  unfold TwitterClient.fromEnv at h
  split at h
  · simp [TwitterClient.ofConfig] at h
    rw [← h]
    rfl
  · split at h
    · simp [TwitterClient.ofConfig] at h
      rw [← h] at hm
      simp at hm
    · simp at h

/-- Claim C8 amended: the publish operation never lets an exception escape.
An exception thrown by the post-creation call is caught and converted
into success = false carrying that message; missing platform credentials
are reported as success = false with a descriptive error; exceptions
during the image upload are caught and swallowed (posting proceeds
without the image), so they do not force success = false. -/
theorem C8_amended_publish_error_handling
    (imagePath : Option String) (loadImage : Option Image) (m e2 el : String)
    (tEnv : TwitterEnv) (c : TwitterClient)
    (hc : TwitterClient.fromEnv tEnv = .ok c) (hmode : c.mode = .oauth)
    (up : UploadOutcome) (ae : ArcadeExecOutcome)
    (tEnv2 : TwitterEnv) (h2 : TwitterClient.fromEnv tEnv2 = .error e2)
    (lEnv2 : LinkedInEnv) (hl : LinkedInClient.fromEnv lEnv2 none = .error el)
    (lEnv : LinkedInEnv) (lw : LinkedInWorld) (tw2 : TwitterWorld) :
    (publishPostTool .twitter imagePath loadImage tEnv ⟨up, .thrown m, ae⟩ lEnv lw).success
      = false ∧
    (publishPostTool .twitter imagePath loadImage tEnv ⟨up, .thrown m, ae⟩ lEnv lw).error
      = some m ∧
    publishPostTool .twitter imagePath loadImage tEnv2 tw2 lEnv lw =
      ⟨"twitter", false, none, none,
        some "Twitter client not available. Check TWITTER_* environment variables."⟩ ∧
    publishPostTool .linkedin imagePath loadImage tEnv2 tw2 lEnv2 lw =
      ⟨"linkedin", false, none, none,
        some "LinkedIn client not available. Check LINKEDIN_* environment variables."⟩ := by
  have hcc : createTwitterClient tEnv = some c := by
    simp [createTwitterClient, hc, Except.toOption]
  have hr : c.postTweet ⟨up, .thrown m, ae⟩
      (match imagePath with | some _ => loadImage | none => none) =
      ⟨false, none, none, some m⟩ := by
    have hoc : c.oauthClient.isNone = false := by
      have := fromEnv_oauth_client hc hmode
      simp [Option.isNone] at this ⊢
      cases hx : c.oauthClient with
      | none => rw [hx] at this; simp at this
      | some v => simp
    simp [TwitterClient.postTweet, hmode, TwitterClient.postTweetOAuth, hoc]
  refine ⟨?_, ?_, ?_, ?_⟩
  · simp [publishPostTool, hcc, hr]
  · simp [publishPostTool, hcc, hr]
  · simp [publishPostTool, createTwitterClient, h2, Except.toOption]
  · simp [publishPostTool, createLinkedInClient, hl, Except.toOption]

/-- Witness for the amended C8 at concrete environments and oracles. -/
theorem C8_amended_witness :
    (publishPostTool .twitter none none
        ⟨some "k", some "s", some "t", some "a", none, none⟩
        ⟨.ok "mid", .thrown "network down", .noOutput⟩
        ⟨none, none, none, none, none⟩ ⟨.notOk, .ok "asset", .ok none, .noOutput⟩).error
      = some "network down" ∧
    publishPostTool .linkedin none none
        ⟨none, none, none, none, none, none⟩
        ⟨.ok "mid", .ok "tid", .noOutput⟩
        ⟨none, none, none, none, none⟩ ⟨.notOk, .ok "asset", .ok none, .noOutput⟩ =
      ⟨"linkedin", false, none, none,
        some "LinkedIn client not available. Check LINKEDIN_* environment variables."⟩ := by
  have h := C8_amended_publish_error_handling none none "network down"
    twitterMissingCredsMsg linkedInMissingCredsMsg
    ⟨some "k", some "s", some "t", some "a", none, none⟩
    ⟨.oauth, some ⟨"k", "s", "t", "a"⟩, none, none⟩
    (by decide) rfl (.ok "mid") .noOutput
    ⟨none, none, none, none, none, none⟩ (by decide)
    ⟨none, none, none, none, none⟩ (by decide)
    ⟨none, none, none, none, none⟩ ⟨.notOk, .ok "asset", .ok none, .noOutput⟩
    ⟨.ok "mid", .ok "tid", .noOutput⟩
  exact ⟨h.2.1, h.2.2.2⟩

/-- Claim C8 counterexample: an exception inside the image upload is caught
and swallowed, and the publish operation still returns success = true
with no error, so upload exceptions are not converted into
success = false results. -/
theorem C8_counterexample :
    publishPostTool .twitter (some "img.png") (some ⟨"https://x/img.png", "image/png"⟩)
      ⟨some "k", some "s", some "t", some "a", none, none⟩
      ⟨.thrown "upload exploded", .ok "123", .noOutput⟩
      ⟨none, none, none, none, none⟩ ⟨.notOk, .ok "asset", .ok none, .noOutput⟩ =
      ⟨"twitter", true, some "123", some "https://twitter.com/i/status/123", none⟩ := by
  decide

/-- The aggregation condition of the tool loop coincides with the url
having produced contents. -/
theorem extractFromUrl_success_iff (u : String) (o : UrlContentsOutcome)
    (ifc : String → List String) :
    ((extractFromUrl u o ifc).success && (extractFromUrl u o ifc).pageContent.isSome)
      = isContents o := by
  cases o <;> simp [extractFromUrl, isContents]

/-- Shape of the aggregation loop output over the mapped per-url results:
relevant links are the successful urls in order, failed urls the rest,
and the page contents carry exactly the successful urls. -/
theorem extractCollect_spec (fetch : String → UrlContentsOutcome)
    (ifc : String → List String) :
    ∀ urls : List String,
      (extractCollect (urls.map (fun u => (u, extractFromUrl u (fetch u) ifc)))).2.1
          = urls.filter (fun u => isContents (fetch u)) ∧
      (extractCollect (urls.map (fun u => (u, extractFromUrl u (fetch u) ifc)))).2.2.2
          = urls.filter (fun u => !isContents (fetch u)) ∧
      (extractCollect (urls.map (fun u => (u, extractFromUrl u (fetch u) ifc)))).1.map
          PageContent.url
          = (extractCollect (urls.map (fun u => (u, extractFromUrl u (fetch u) ifc)))).2.1 := by
  intro urls
  induction urls with
  | nil => simp [extractCollect]
  | cons u us ih =>
    obtain ⟨ih1, ih2, ih3⟩ := ih
    rcases hE : extractCollect (List.map (fun w => (w, extractFromUrl w (fetch w) ifc)) us)
      with ⟨pcs, links, imgs, fails⟩
    simp only [hE] at ih1 ih2 ih3
    cases ho : fetch u with
    | contents content imageUrls =>
      have hsucc : (extractFromUrl u (fetch u) ifc).success = true := by rw [ho]; rfl
      have hpc : (extractFromUrl u (fetch u) ifc).pageContent = some ⟨u, content⟩ := by
        rw [ho]; rfl
      have hct : isContents (fetch u) = true := by rw [ho]; rfl
      simp only [List.map_cons, extractCollect, hE]
      simp [hsucc, hpc, hct, List.filter_cons, ih1, ih2, ih3]
    | failed =>
      have hsucc : (extractFromUrl u (fetch u) ifc).success = false := by rw [ho]; rfl
      have hct : isContents (fetch u) = false := by rw [ho]; rfl
      simp only [List.map_cons, extractCollect, hE]
      simp [hsucc, hct, List.filter_cons, ih1, ih2, ih3]
    | thrown m =>
      have hsucc : (extractFromUrl u (fetch u) ifc).success = false := by rw [ho]; rfl
      have hct : isContents (fetch u) = false := by rw [ho]; rfl
      simp only [List.map_cons, extractCollect, hE]
      simp [hsucc, hct, List.filter_cons, ih1, ih2, ih3]

/-- Claim C9: extract_content partitions the input urls between the
success outputs and failedUrls: relevant links list exactly the
successful urls, page contents carry those same urls, failed urls list
the rest, the counts add up to the input count, and a batch of three
urls with exactly one permanent failure yields two page contents and
that one url in failedUrls. -/
theorem C9_extract_content_partition (urls : List String)
    (fetch : String → UrlContentsOutcome) (ifc : String → List String)
    (u1 u2 u3 : String)
    (h1 : isContents (fetch u1) = true) (h2 : isContents (fetch u2) = true)
    (h3 : isContents (fetch u3) = false) :
    ((extractContentTool urls fetch ifc).pageContents.length
        + (extractContentTool urls fetch ifc).failedUrls.length = urls.length) ∧
    (extractContentTool urls fetch ifc).relevantLinks
        = urls.filter (fun u => isContents (fetch u)) ∧
    (extractContentTool urls fetch ifc).failedUrls
        = urls.filter (fun u => !isContents (fetch u)) ∧
    (extractContentTool urls fetch ifc).pageContents.map PageContent.url
        = (extractContentTool urls fetch ifc).relevantLinks ∧
    (extractContentTool [u1, u2, u3] fetch ifc).pageContents.length = 2 ∧
    (extractContentTool [u1, u2, u3] fetch ifc).failedUrls = [u3] := by
  have hproj : ∀ us : List String,
      (extractContentTool us fetch ifc).pageContents
          = (extractCollect (us.map (fun u => (u, extractFromUrl u (fetch u) ifc)))).1 ∧
      (extractContentTool us fetch ifc).relevantLinks
          = (extractCollect (us.map (fun u => (u, extractFromUrl u (fetch u) ifc)))).2.1 ∧
      (extractContentTool us fetch ifc).failedUrls
          = (extractCollect (us.map (fun u => (u, extractFromUrl u (fetch u) ifc)))).2.2.2 := by
    intro us
    simp [extractContentTool]
  obtain ⟨hp, hl, hf⟩ := hproj urls
  obtain ⟨s1, s2, s3⟩ := extractCollect_spec fetch ifc urls
  have hlen : (extractContentTool urls fetch ifc).pageContents.length
      = (urls.filter (fun u => isContents (fetch u))).length := by
    rw [hp, ← List.length_map _ PageContent.url, s3, s1]
  refine ⟨?_, by rw [hl, s1], by rw [hf, s2], by rw [hp, hl, s3], ?_, ?_⟩
  · rw [hlen, hf, s2]
    exact (List.length_eq_length_filter_add (fun u => isContents (fetch u))).symm
  · obtain ⟨hp3, hl3, hf3⟩ := hproj [u1, u2, u3]
    obtain ⟨t1, _t2, t3⟩ := extractCollect_spec fetch ifc [u1, u2, u3]
    have : (extractContentTool [u1, u2, u3] fetch ifc).pageContents.length
        = ([u1, u2, u3].filter (fun u => isContents (fetch u))).length := by
      rw [hp3, ← List.length_map _ PageContent.url, t3, t1]
    rw [this]
    simp [List.filter_cons, h1, h2, h3]
  · obtain ⟨_hp3, _hl3, hf3⟩ := hproj [u1, u2, u3]
    obtain ⟨_t1, t2, _t3⟩ := extractCollect_spec fetch ifc [u1, u2, u3]
    rw [hf3, t2]
    simp [List.filter_cons, h1, h2, h3]

/-- Witness for C9 at a concrete batch where the third url fails. -/
theorem C9_extract_content_partition_witness :
    (extractContentTool ["https://a", "https://b", "https://c"]
        (fun u => if u = "https://c" then .failed else .contents ("text of " ++ u) none)
        (fun _ => [])).pageContents.length = 2 ∧
    (extractContentTool ["https://a", "https://b", "https://c"]
        (fun u => if u = "https://c" then .failed else .contents ("text of " ++ u) none)
        (fun _ => [])).failedUrls = ["https://c"] := by
  have h := C9_extract_content_partition ["https://a", "https://b", "https://c"]
    (fun u => if u = "https://c" then .failed else .contents ("text of " ++ u) none)
    (fun _ => []) "https://a" "https://b" "https://c"
    (by decide) (by decide) (by decide)
  exact ⟨h.2.2.2.2.1, h.2.2.2.2.2⟩

end ContentBuilder
